import Mathlib

/-!
Verification of the Catalyst adaptor (`src/extern/catalyst/CatalystAdaptor.c`).

The adaptor marshals one simulation mesh snapshot per cycle into a Conduit
node tree and hands it to the Catalyst pipeline via `catalyst_initialize`,
`catalyst_execute` and `catalyst_finalize`.

Shallow embedding used here:
* A `conduit_node` is modelled as a flat association list from path strings
  to values (`ConduitNode`); all paths written by the adaptor are distinct
  leaf paths, so the flat map is faithful to Conduit's path tree.
* Conduit nodes live in a handle-indexed heap (`Heap`); `conduit_node_create`
  allocates a fresh handle, `conduit_node_destroy` removes the node from the
  heap.  Per Conduit's documented semantics of `set_path_external_*`, an
  external view stores only the pointer and the layout parameters, never a
  copy of the data, so destroying a node cannot touch simulation memory.
* Simulation memory is a separate structure `SimMem` mapping a base pointer
  and an 8-byte-slot index to the stored 64-bit pattern; C `double` values
  are carried as opaque 64-bit patterns (`F64`), since the adaptor never
  computes with them, only moves them.
* The opaque pipeline calls are modelled by trace events (`Event`) carrying
  the submitted node contents, and the status each call returns is an input
  of the embedded function.
* `exit(1)` is modelled by the result `ProcResult.exited 1`: the function
  stops at that point and no later event is emitted.
-/

/-- Opaque 64-bit pattern of a C `double`; the adaptor only passes doubles
through, never computes with them. -/
abbrev F64 := Nat

/-- Base address of a simulation-owned array. -/
abbrev Ptr := Nat

/-- A value stored at a path of a Conduit node, covering exactly the setter
variants the adaptor uses. -/
inductive CVal where
  | str : String → CVal
  | i64 : Int → CVal
  | f64 : F64 → CVal
  | extF64Detailed : Ptr → Nat → Nat → Nat → Nat → Nat → CVal
  | extF64 : Ptr → Nat → CVal
  | extI64 : Ptr → Nat → CVal
  | extNode : Nat → CVal
deriving DecidableEq, Repr

/-- A Conduit node: a finite map from path strings to values, kept in
insertion order. -/
abbrev ConduitNode := List (String × CVal)

/-- Set a path of a node, overwriting in place when the path is present and
appending at the end otherwise (Conduit `set_path` semantics). -/
def setPath : ConduitNode → String → CVal → ConduitNode
  | [], p, v => [(p, v)]
  | (q, w) :: rest, p, v =>
      if q = p then (p, v) :: rest else (q, w) :: setPath rest p v

/-- Fetch the value stored at a path of a node. -/
def lookupPath : ConduitNode → String → Option CVal
  | [], _ => none
  | (q, w) :: rest, p => if q = p then some w else lookupPath rest p

/-- Look up a node by handle in a heap's live list (handles are unique, so
first match is the match). -/
def lookupNode : List (Nat × ConduitNode) → Nat → Option ConduitNode
  | [], _ => none
  | (q, n) :: rest, id => if q = id then some n else lookupNode rest id

/-- Apply an update to the node with the given handle. -/
def updateNode : List (Nat × ConduitNode) → Nat → (ConduitNode → ConduitNode) →
    List (Nat × ConduitNode)
  | [], _, _ => []
  | (q, n) :: rest, id, f =>
      if q = id then (q, f n) :: rest else (q, n) :: updateNode rest id f

/-- Remove the node with the given handle. -/
def removeNode : List (Nat × ConduitNode) → Nat → List (Nat × ConduitNode)
  | [], _ => []
  | (q, n) :: rest, id => if q = id then rest else (q, n) :: removeNode rest id

/-- The heap of live Conduit nodes: handle/content pairs plus the next fresh
handle. -/
structure Heap where
  live : List (Nat × ConduitNode)
  next : Nat
deriving DecidableEq, Repr

/-- `conduit_node_create`: allocate an empty node under a fresh handle. -/
def conduit_node_create (h : Heap) : Nat × Heap :=
  (h.next, ⟨(h.next, []) :: h.live, h.next + 1⟩)

/-- `conduit_node_destroy`: drop the node from the heap.  External views
inside the node hold only pointers, so simulation memory is untouched. -/
def conduit_node_destroy (h : Heap) (id : Nat) : Heap :=
  ⟨removeNode h.live id, h.next⟩

/-- Content of the node behind a handle. -/
def Heap.get (h : Heap) (id : Nat) : Option ConduitNode :=
  lookupNode h.live id

/-- Write one path of the node behind a handle. -/
def Heap.setp (h : Heap) (id : Nat) (p : String) (v : CVal) : Heap :=
  ⟨updateNode h.live id (fun n => setPath n p v), h.next⟩

/-- `conduit_node_set_path_char8_str`. -/
def conduit_node_set_path_char8_str (h : Heap) (id : Nat) (p s : String) : Heap :=
  h.setp id p (CVal.str s)

/-- `conduit_node_set_path_int64`. -/
def conduit_node_set_path_int64 (h : Heap) (id : Nat) (p : String) (x : Int) : Heap :=
  h.setp id p (CVal.i64 x)

/-- `conduit_node_set_path_float64`. -/
def conduit_node_set_path_float64 (h : Heap) (id : Nat) (p : String) (x : F64) : Heap :=
  h.setp id p (CVal.f64 x)

/-- `conduit_node_set_path_external_float64_ptr_detailed` (data pointer,
element count, byte offset, byte stride, element bytes, endianness). -/
def conduit_node_set_path_external_float64_ptr_detailed (h : Heap) (id : Nat)
    (p : String) (d : Ptr) (num off stride elemBytes endian : Nat) : Heap :=
  h.setp id p (CVal.extF64Detailed d num off stride elemBytes endian)

/-- `conduit_node_set_path_external_float64_ptr` (contiguous view). -/
def conduit_node_set_path_external_float64_ptr (h : Heap) (id : Nat)
    (p : String) (d : Ptr) (num : Nat) : Heap :=
  h.setp id p (CVal.extF64 d num)

/-- `conduit_node_set_path_external_int64_ptr` (contiguous view). -/
def conduit_node_set_path_external_int64_ptr (h : Heap) (id : Nat)
    (p : String) (d : Ptr) (num : Nat) : Heap :=
  h.setp id p (CVal.extI64 d num)

/-- `conduit_node_set_path_external_node`: store a by-reference link to
another node. -/
def conduit_node_set_path_external_node (h : Heap) (id : Nat)
    (p : String) (child : Nat) : Heap :=
  h.setp id p (CVal.extNode child)

/-- `catalyst_status_ok` of the Catalyst status enumeration. -/
def catalyst_status_ok : Int := 0

/-- `CONDUIT_ENDIANNESS_DEFAULT_ID` from the Conduit headers. -/
def CONDUIT_ENDIANNESS_DEFAULT_ID : Nat := 0

/-- `sizeof(double)` on the target platform. -/
def sizeof_double : Nat := 8

/-- The `CatalystData` struct.  `dimensions` is a C `int` (32-bit signed);
`NumberOfPoints`, `NumberOfCells` and `Cell2VertexSize` are C `unsigned int`
(32-bit unsigned), hence the range fields; the remaining fields are pointers
into simulation-owned arrays. -/
structure CatalystData where
  dimensions : Int
  NumberOfPoints : Nat
  NumberOfCells : Nat
  Cell2VertexSize : Nat
  Points : Ptr
  Cells : Ptr
  velx : Ptr
  vely : Ptr
  velz : Ptr
  Pressure : Ptr
  dimensions_lb : -(2 : Int) ^ 31 ≤ dimensions
  dimensions_ub : dimensions < 2 ^ 31
  NumberOfPoints_lt : NumberOfPoints < 2 ^ 32
  NumberOfCells_lt : NumberOfCells < 2 ^ 32
  Cell2VertexSize_lt : Cell2VertexSize < 2 ^ 32

/-- Observable external actions of the adaptor: `printf` output and the three
opaque pipeline calls, each carrying the submitted node content (for the
execute call: the parameter node, the mesh handle it references externally,
and the mesh node content at submission time). -/
inductive Event where
  | printed : String → Event
  | initCall : ConduitNode → Event
  | execCall : ConduitNode → Nat → ConduitNode → Event
  | finalCall : ConduitNode → Event
deriving DecidableEq, Repr

/-- Whether the embedded function returned normally or the process exited. -/
inductive ProcResult where
  | exited : Int → ProcResult
  | returned : ProcResult
deriving DecidableEq, Repr

/-- Result of running one embedded adaptor function: process outcome, event
trace in program order, and the final node heap. -/
structure Outcome where
  result : ProcResult
  trace : List Event
  heap : Heap
deriving DecidableEq, Repr

/-- `do_catalyst_initialization`.  The status returned by the opaque
`catalyst_initialize` call is an input of the model. -/
def do_catalyst_initialization (status : Int) (h0 : Heap) : Outcome :=
  let c := conduit_node_create h0
  let catalyst_init_params := c.1
  let h1 := c.2
  let h2 := conduit_node_set_path_char8_str h1 catalyst_init_params
    "catalyst/scripts/script0" "catalyst_pipeline.py"
  let h3 := conduit_node_set_path_char8_str h2 catalyst_init_params
    "catalyst_load/implementation" "paraview"
  let h4 := conduit_node_set_path_char8_str h3 catalyst_init_params
    "catalyst_load/search_paths/paraview"
    "/home/uqngibbo/source/ParaView/build/lib/catalyst"
  let submitted := (h4.get catalyst_init_params).getD []
  let err := status
  let h5 := conduit_node_destroy h4 catalyst_init_params
  let diag :=
    if err ≠ catalyst_status_ok then
      [Event.printed ("Failed to initialize Catalyst: " ++ toString err ++ "\n")]
    else []
  ⟨ProcResult.returned, Event.initCall submitted :: diag, h5⟩

/-- Tail of `do_catalyt_execute` after the element shape has been written:
connectivity, the four cell fields, channel attachment, the execute call, the
status check and the destruction of both transient nodes. -/
def finish_execute (status : Int) (catalyst_exec_params mesh : Nat)
    (data : CatalystData) (h : Heap) : Outcome :=
  let h1 := conduit_node_set_path_external_int64_ptr h mesh
    "topologies/mesh/elements/connectivity" data.Cells data.Cell2VertexSize
  let h2 := conduit_node_set_path_char8_str h1 mesh "fields/velx/association" "element"
  let h3 := conduit_node_set_path_char8_str h2 mesh "fields/velx/topology" "mesh"
  let h4 := conduit_node_set_path_char8_str h3 mesh "fields/velx/volume_dependent" "false"
  let h5 := conduit_node_set_path_external_float64_ptr h4 mesh
    "fields/velx/values" data.velx data.NumberOfCells
  let h6 := conduit_node_set_path_char8_str h5 mesh "fields/vely/association" "element"
  let h7 := conduit_node_set_path_char8_str h6 mesh "fields/vely/topology" "mesh"
  let h8 := conduit_node_set_path_char8_str h7 mesh "fields/vely/volume_dependent" "false"
  let h9 := conduit_node_set_path_external_float64_ptr h8 mesh
    "fields/vely/values" data.vely data.NumberOfCells
  let h10 := conduit_node_set_path_char8_str h9 mesh "fields/velz/association" "element"
  let h11 := conduit_node_set_path_char8_str h10 mesh "fields/velz/topology" "mesh"
  let h12 := conduit_node_set_path_char8_str h11 mesh "fields/velz/volume_dependent" "false"
  let h13 := conduit_node_set_path_external_float64_ptr h12 mesh
    "fields/velz/values" data.velz data.NumberOfCells
  let h14 := conduit_node_set_path_char8_str h13 mesh "fields/pressure/association" "element"
  let h15 := conduit_node_set_path_char8_str h14 mesh "fields/pressure/topology" "mesh"
  let h16 := conduit_node_set_path_char8_str h15 mesh "fields/pressure/volume_dependent" "false"
  let h17 := conduit_node_set_path_external_float64_ptr h16 mesh
    "fields/pressure/values" data.Pressure data.NumberOfCells
  let h18 := conduit_node_set_path_external_node h17 catalyst_exec_params
    "catalyst/channels/grid/data" mesh
  let submittedParams := (h18.get catalyst_exec_params).getD []
  let submittedMesh := (h18.get mesh).getD []
  let err := status
  let diag :=
    if err ≠ catalyst_status_ok then
      [Event.printed ("Failed to execute Catalyst: " ++ toString err ++ "\n")]
    else []
  let h19 := conduit_node_destroy h18 catalyst_exec_params
  let h20 := conduit_node_destroy h19 mesh
  ⟨ProcResult.returned,
    Event.execCall submittedParams mesh submittedMesh :: diag, h20⟩

/-- `do_catalyt_execute` (the source's spelling).  The status returned by the
opaque `catalyst_execute` call is an input of the model. -/
def do_catalyt_execute (cycle : Int) (time : F64) (data : CatalystData)
    (status : Int) (h0 : Heap) : Outcome :=
  let c := conduit_node_create h0
  let catalyst_exec_params := c.1
  let h1 := c.2
  let h2 := conduit_node_set_path_int64 h1 catalyst_exec_params
    "catalyst/state/timestep" cycle
  let h3 := conduit_node_set_path_float64 h2 catalyst_exec_params
    "catalyst/state/time" time
  let h4 := conduit_node_set_path_char8_str h3 catalyst_exec_params
    "catalyst/channels/grid/type" "mesh"
  let c2 := conduit_node_create h4
  let mesh := c2.1
  let h5 := c2.2
  let h6 := conduit_node_set_path_char8_str h5 mesh "coordsets/coords/type" "explicit"
  let h7 := conduit_node_set_path_char8_str h6 mesh "coordsets/coords/type" "explicit"
  let h8 := conduit_node_set_path_external_float64_ptr_detailed h7 mesh
    "coordsets/coords/values/x" data.Points data.NumberOfPoints 0
    (3 * sizeof_double) sizeof_double CONDUIT_ENDIANNESS_DEFAULT_ID
  let h9 := conduit_node_set_path_external_float64_ptr_detailed h8 mesh
    "coordsets/coords/values/y" data.Points data.NumberOfPoints (1 * sizeof_double)
    (3 * sizeof_double) sizeof_double CONDUIT_ENDIANNESS_DEFAULT_ID
  let h10 := conduit_node_set_path_external_float64_ptr_detailed h9 mesh
    "coordsets/coords/values/z" data.Points data.NumberOfPoints (2 * sizeof_double)
    (3 * sizeof_double) sizeof_double CONDUIT_ENDIANNESS_DEFAULT_ID
  let h11 := conduit_node_set_path_char8_str h10 mesh "topologies/mesh/type" "unstructured"
  let h12 := conduit_node_set_path_char8_str h11 mesh "topologies/mesh/coordset" "coords"
  if data.dimensions = 2 then
    finish_execute status catalyst_exec_params mesh data
      (conduit_node_set_path_char8_str h12 mesh "topologies/mesh/elements/shape" "quad")
  else if data.dimensions = 3 then
    finish_execute status catalyst_exec_params mesh data
      (conduit_node_set_path_char8_str h12 mesh "topologies/mesh/elements/shape" "hex")
  else
    ⟨ProcResult.exited 1,
      [Event.printed ("Error, incorrect dimensions " ++ toString data.dimensions ++ " ")],
      h12⟩

/-- `do_catalyt_finalization` (the source's spelling).  The status returned by
the opaque `catalyst_finalize` call is an input of the model. -/
def do_catalyt_finalization (status : Int) (h0 : Heap) : Outcome :=
  let c := conduit_node_create h0
  let catalyst_fini_params := c.1
  let h1 := c.2
  let submitted := (h1.get catalyst_fini_params).getD []
  let err := status
  let diag :=
    if err ≠ catalyst_status_ok then
      [Event.printed ("Failed to execute Catalyst: " ++ toString err ++ "\n")]
    else []
  let h2 := conduit_node_destroy h1 catalyst_fini_params
  ⟨ProcResult.returned, Event.finalCall submitted :: diag, h2⟩

/-- Simulation-owned memory, at 8-byte-slot granularity: `f64 p k` is the
64-bit pattern of the double stored `k` slots past base pointer `p` (every
access the adaptor describes is 8-byte aligned). -/
structure SimMem where
  f64 : Ptr → Nat → F64
  i64 : Ptr → Nat → Int

/-- Dereference element `i` of a float64 view against simulation memory,
following the view's byte offset and byte stride; `none` past the declared
length or for a non-float64 value. -/
def CVal.derefF64 (m : SimMem) : CVal → Nat → Option F64
  | CVal.extF64Detailed p num off stride _ _, i =>
      if i < num then some (m.f64 p ((off + i * stride) / 8)) else none
  | CVal.extF64 p num, i =>
      if i < num then some (m.f64 p i) else none
  | _, _ => none

/-- Declared element count of a view value, `none` for non-view values. -/
def viewLength : CVal → Option Nat
  | CVal.extF64Detailed _ num _ _ _ _ => some num
  | CVal.extF64 _ num => some num
  | CVal.extI64 _ num => some num
  | _ => none

/-- Vertices per cell of the element shape selected by `dimensions`: 4 for a
quad, 8 for a hex (used to state the snapshot-consistency hypothesis). -/
def verticesPerCell (d : Int) : Nat :=
  if d = 2 then 4 else if d = 3 then 8 else 0

/-- Normal form of the initialization configuration node. -/
def initParamsNode : ConduitNode :=
  [("catalyst/scripts/script0", CVal.str "catalyst_pipeline.py"),
   ("catalyst_load/implementation", CVal.str "paraview"),
   ("catalyst_load/search_paths/" ++ "paraview",
     CVal.str "/home/uqngibbo/source/ParaView/build/lib/catalyst")]

/-- Normal form of the execute parameter node, given the handle of the mesh
node it references externally. -/
def execParamsNode (cycle : Int) (time : F64) (meshId : Nat) : ConduitNode :=
  [("catalyst/state/timestep", CVal.i64 cycle),
   ("catalyst/state/time", CVal.f64 time),
   ("catalyst/channels/grid/type", CVal.str "mesh"),
   ("catalyst/channels/grid/data", CVal.extNode meshId)]

/-- Normal form of the submitted mesh node for a given element shape tag. -/
def meshNode (data : CatalystData) (shape : String) : ConduitNode :=
  [("coordsets/coords/type", CVal.str "explicit"),
   ("coordsets/coords/values/x",
     CVal.extF64Detailed data.Points data.NumberOfPoints 0 24 8 0),
   ("coordsets/coords/values/y",
     CVal.extF64Detailed data.Points data.NumberOfPoints 8 24 8 0),
   ("coordsets/coords/values/z",
     CVal.extF64Detailed data.Points data.NumberOfPoints 16 24 8 0),
   ("topologies/mesh/type", CVal.str "unstructured"),
   ("topologies/mesh/coordset", CVal.str "coords"),
   ("topologies/mesh/elements/shape", CVal.str shape),
   ("topologies/mesh/elements/connectivity",
     CVal.extI64 data.Cells data.Cell2VertexSize),
   ("fields/velx/association", CVal.str "element"),
   ("fields/velx/topology", CVal.str "mesh"),
   ("fields/velx/volume_dependent", CVal.str "false"),
   ("fields/velx/values", CVal.extF64 data.velx data.NumberOfCells),
   ("fields/vely/association", CVal.str "element"),
   ("fields/vely/topology", CVal.str "mesh"),
   ("fields/vely/volume_dependent", CVal.str "false"),
   ("fields/vely/values", CVal.extF64 data.vely data.NumberOfCells),
   ("fields/velz/association", CVal.str "element"),
   ("fields/velz/topology", CVal.str "mesh"),
   ("fields/velz/volume_dependent", CVal.str "false"),
   ("fields/velz/values", CVal.extF64 data.velz data.NumberOfCells),
   ("fields/pressure/association", CVal.str "element"),
   ("fields/pressure/topology", CVal.str "mesh"),
   ("fields/pressure/volume_dependent", CVal.str "false"),
   ("fields/pressure/values", CVal.extF64 data.Pressure data.NumberOfCells)]

/-- Normal form of the partially built mesh node at the point where an
invalid `dimensions` value is detected. -/
def meshNodePre (data : CatalystData) : ConduitNode :=
  [("coordsets/coords/type", CVal.str "explicit"),
   ("coordsets/coords/values/x",
     CVal.extF64Detailed data.Points data.NumberOfPoints 0 24 8 0),
   ("coordsets/coords/values/y",
     CVal.extF64Detailed data.Points data.NumberOfPoints 8 24 8 0),
   ("coordsets/coords/values/z",
     CVal.extF64Detailed data.Points data.NumberOfPoints 16 24 8 0),
   ("topologies/mesh/type", CVal.str "unstructured"),
   ("topologies/mesh/coordset", CVal.str "coords")]

/-- Normal form of the execute parameter node before the mesh is attached. -/
def execParamsPre (cycle : Int) (time : F64) : ConduitNode :=
  [("catalyst/state/timestep", CVal.i64 cycle),
   ("catalyst/state/time", CVal.f64 time),
   ("catalyst/channels/grid/type", CVal.str "mesh")]

/-- The diagnostic events the status check of a call emits. -/
def statusDiag (prefixMsg : String) (status : Int) : List Event :=
  if status ≠ catalyst_status_ok then
    [Event.printed (prefixMsg ++ toString status ++ "\n")]
  else []

/-- The seventeen path writes of `finish_execute` on the mesh node, in
program order. -/
def meshWrites (data : CatalystData) : List (String × CVal) :=
  [("topologies/mesh/elements/connectivity",
     CVal.extI64 data.Cells data.Cell2VertexSize),
   ("fields/velx/association", CVal.str "element"),
   ("fields/velx/topology", CVal.str "mesh"),
   ("fields/velx/volume_dependent", CVal.str "false"),
   ("fields/velx/values", CVal.extF64 data.velx data.NumberOfCells),
   ("fields/vely/association", CVal.str "element"),
   ("fields/vely/topology", CVal.str "mesh"),
   ("fields/vely/volume_dependent", CVal.str "false"),
   ("fields/vely/values", CVal.extF64 data.vely data.NumberOfCells),
   ("fields/velz/association", CVal.str "element"),
   ("fields/velz/topology", CVal.str "mesh"),
   ("fields/velz/volume_dependent", CVal.str "false"),
   ("fields/velz/values", CVal.extF64 data.velz data.NumberOfCells),
   ("fields/pressure/association", CVal.str "element"),
   ("fields/pressure/topology", CVal.str "mesh"),
   ("fields/pressure/volume_dependent", CVal.str "false"),
   ("fields/pressure/values", CVal.extF64 data.Pressure data.NumberOfCells)]

/-- Apply a list of path writes to a node, left to right. -/
def applyWrites (n : ConduitNode) (ws : List (String × CVal)) : ConduitNode :=
  ws.foldl (fun acc e => setPath acc e.1 e.2) n
/-- Key paths of the mesh node at the point of the shape write, in order. -/
def meshHeadKeys : List String :=
  ["coordsets/coords/type", "coordsets/coords/values/x",
   "coordsets/coords/values/y", "coordsets/coords/values/z",
   "topologies/mesh/type", "topologies/mesh/coordset",
   "topologies/mesh/elements/shape"]

/-- Key paths of the seventeen tail writes of `finish_execute`, in order. -/
def meshWriteKeys : List String :=
  ["topologies/mesh/elements/connectivity",
   "fields/velx/association", "fields/velx/topology",
   "fields/velx/volume_dependent", "fields/velx/values",
   "fields/vely/association", "fields/vely/topology",
   "fields/vely/volume_dependent", "fields/vely/values",
   "fields/velz/association", "fields/velz/topology",
   "fields/velz/volume_dependent", "fields/velz/values",
   "fields/pressure/association", "fields/pressure/topology",
   "fields/pressure/volume_dependent", "fields/pressure/values"]

/-- The mesh node after the head writes, including the shape tag. -/
def meshNodeHead (data : CatalystData) (shape : String) : ConduitNode :=
  [("coordsets/coords/type", CVal.str "explicit"),
   ("coordsets/coords/values/x",
     CVal.extF64Detailed data.Points data.NumberOfPoints 0 24 8 0),
   ("coordsets/coords/values/y",
     CVal.extF64Detailed data.Points data.NumberOfPoints 8 24 8 0),
   ("coordsets/coords/values/z",
     CVal.extF64Detailed data.Points data.NumberOfPoints 16 24 8 0),
   ("topologies/mesh/type", CVal.str "unstructured"),
   ("topologies/mesh/coordset", CVal.str "coords"),
   ("topologies/mesh/elements/shape", CVal.str shape)]


/-- Comparison program for the idempotence claim: `do_catalyt_execute` with
the duplicated `coordsets/coords/type` write performed once instead of
twice; everything else is identical. -/
def do_catalyt_execute_single_typeset (cycle : Int) (time : F64)
    (data : CatalystData) (status : Int) (h0 : Heap) : Outcome :=
  let c := conduit_node_create h0
  let catalyst_exec_params := c.1
  let h1 := c.2
  let h2 := conduit_node_set_path_int64 h1 catalyst_exec_params
    "catalyst/state/timestep" cycle
  let h3 := conduit_node_set_path_float64 h2 catalyst_exec_params
    "catalyst/state/time" time
  let h4 := conduit_node_set_path_char8_str h3 catalyst_exec_params
    "catalyst/channels/grid/type" "mesh"
  let c2 := conduit_node_create h4
  let mesh := c2.1
  let h5 := c2.2
  let h7 := conduit_node_set_path_char8_str h5 mesh "coordsets/coords/type" "explicit"
  let h8 := conduit_node_set_path_external_float64_ptr_detailed h7 mesh
    "coordsets/coords/values/x" data.Points data.NumberOfPoints 0
    (3 * sizeof_double) sizeof_double CONDUIT_ENDIANNESS_DEFAULT_ID
  let h9 := conduit_node_set_path_external_float64_ptr_detailed h8 mesh
    "coordsets/coords/values/y" data.Points data.NumberOfPoints (1 * sizeof_double)
    (3 * sizeof_double) sizeof_double CONDUIT_ENDIANNESS_DEFAULT_ID
  let h10 := conduit_node_set_path_external_float64_ptr_detailed h9 mesh
    "coordsets/coords/values/z" data.Points data.NumberOfPoints (2 * sizeof_double)
    (3 * sizeof_double) sizeof_double CONDUIT_ENDIANNESS_DEFAULT_ID
  let h11 := conduit_node_set_path_char8_str h10 mesh "topologies/mesh/type" "unstructured"
  let h12 := conduit_node_set_path_char8_str h11 mesh "topologies/mesh/coordset" "coords"
  if data.dimensions = 2 then
    finish_execute status catalyst_exec_params mesh data
      (conduit_node_set_path_char8_str h12 mesh "topologies/mesh/elements/shape" "quad")
  else if data.dimensions = 3 then
    finish_execute status catalyst_exec_params mesh data
      (conduit_node_set_path_char8_str h12 mesh "topologies/mesh/elements/shape" "hex")
  else
    ⟨ProcResult.exited 1,
      [Event.printed ("Error, incorrect dimensions " ++ toString data.dimensions ++ " ")],
      h12⟩

/-- Sample 2-D snapshot for the witness theorems. -/
def dataQuad : CatalystData :=
  ⟨2, 4, 1, 4, 10, 11, 12, 13, 14, 15, by norm_num, by norm_num, by norm_num,
    by norm_num, by norm_num⟩

/-- Sample simulation memory for the witness theorems. -/
def simMem0 : SimMem :=
  ⟨fun p k => p + k, fun p k => (p : Int) + (k : Int)⟩

/-- The empty heap for the witness theorems. -/
def heap0 : Heap := ⟨[], 0⟩

/-- Conclusion of claim C1: the submitted mesh carries the x/y/z coordinate
views over `Points` with length `NumberOfPoints`, element size 8 bytes,
stride 24 bytes, byte offsets 0/8/16, and dereferencing view `a` at index
`i` reads the interleaved element `points[3*i + a]`. -/
def CoordViewsOk (cycle : Int) (time : F64) (data : CatalystData)
    (status : Int) (h0 : Heap) (msim : SimMem) : Prop :=
  ∃ p m rest, (do_catalyt_execute cycle time data status h0).trace =
      Event.execCall p (h0.next + 1) m :: rest ∧
    lookupPath m "coordsets/coords/values/x" =
      some (CVal.extF64Detailed data.Points data.NumberOfPoints 0 24 8
        CONDUIT_ENDIANNESS_DEFAULT_ID) ∧
    lookupPath m "coordsets/coords/values/y" =
      some (CVal.extF64Detailed data.Points data.NumberOfPoints 8 24 8
        CONDUIT_ENDIANNESS_DEFAULT_ID) ∧
    lookupPath m "coordsets/coords/values/z" =
      some (CVal.extF64Detailed data.Points data.NumberOfPoints 16 24 8
        CONDUIT_ENDIANNESS_DEFAULT_ID) ∧
    ∀ i, i < data.NumberOfPoints →
      CVal.derefF64 msim (CVal.extF64Detailed data.Points data.NumberOfPoints 0 24 8
        CONDUIT_ENDIANNESS_DEFAULT_ID) i = some (msim.f64 data.Points (3 * i + 0)) ∧
      CVal.derefF64 msim (CVal.extF64Detailed data.Points data.NumberOfPoints 8 24 8
        CONDUIT_ENDIANNESS_DEFAULT_ID) i = some (msim.f64 data.Points (3 * i + 1)) ∧
      CVal.derefF64 msim (CVal.extF64Detailed data.Points data.NumberOfPoints 16 24 8
        CONDUIT_ENDIANNESS_DEFAULT_ID) i = some (msim.f64 data.Points (3 * i + 2))

/-- Conclusion of claim C2: `dimensions = 2` yields shape tag "quad",
`dimensions = 3` yields "hex", and any other value exits the process with
code 1 before the execute call is made. -/
def ShapeTagOk (cycle : Int) (time : F64) (data : CatalystData)
    (status : Int) (h0 : Heap) : Prop :=
  (data.dimensions = 2 →
    ∃ p m rest, (do_catalyt_execute cycle time data status h0).trace =
        Event.execCall p (h0.next + 1) m :: rest ∧
      lookupPath m "topologies/mesh/elements/shape" = some (CVal.str "quad") ∧
      (do_catalyt_execute cycle time data status h0).result = ProcResult.returned) ∧
  (data.dimensions = 3 →
    ∃ p m rest, (do_catalyt_execute cycle time data status h0).trace =
        Event.execCall p (h0.next + 1) m :: rest ∧
      lookupPath m "topologies/mesh/elements/shape" = some (CVal.str "hex") ∧
      (do_catalyt_execute cycle time data status h0).result = ProcResult.returned) ∧
  (data.dimensions ≠ 2 → data.dimensions ≠ 3 →
    (do_catalyt_execute cycle time data status h0).result = ProcResult.exited 1 ∧
    (1 : Int) ≠ 0 ∧
    ∀ p mid m,
      Event.execCall p mid m ∉ (do_catalyt_execute cycle time data status h0).trace)

/-- Conclusion of claim C3: the connectivity entry is an external int64 view
of `Cells` of declared length `Cell2VertexSize`, which under the consistency
hypothesis equals `NumberOfCells` times the vertices per cell (4 for quad, 8
for hex). -/
def ConnectivityOk (cycle : Int) (time : F64) (data : CatalystData)
    (status : Int) (h0 : Heap) : Prop :=
  ∃ p m rest, (do_catalyt_execute cycle time data status h0).trace =
      Event.execCall p (h0.next + 1) m :: rest ∧
    lookupPath m "topologies/mesh/elements/connectivity" =
      some (CVal.extI64 data.Cells data.Cell2VertexSize) ∧
    viewLength (CVal.extI64 data.Cells data.Cell2VertexSize) =
      some data.Cell2VertexSize ∧
    data.Cell2VertexSize = data.NumberOfCells * verticesPerCell data.dimensions ∧
    (data.dimensions = 2 → verticesPerCell data.dimensions = 4) ∧
    (data.dimensions = 3 → verticesPerCell data.dimensions = 8)

/-- Conclusion of claim C4: the submitted mesh is exactly `meshNode` (so the
field entries are exactly velx, vely, velz, pressure), each field carries
association "element", topology "mesh", volume_dependent "false" and an
external float64 view of the matching snapshot array of length
`NumberOfCells`, and dereferencing the view reads the array unchanged. -/
def FieldViewsOk (cycle : Int) (time : F64) (data : CatalystData)
    (status : Int) (h0 : Heap) (msim : SimMem) : Prop :=
  ∃ p shape rest, (do_catalyt_execute cycle time data status h0).trace =
      Event.execCall p (h0.next + 1) (meshNode data shape) :: rest ∧
    lookupPath (meshNode data shape) "fields/velx/association" = some (CVal.str "element") ∧
    lookupPath (meshNode data shape) "fields/velx/topology" = some (CVal.str "mesh") ∧
    lookupPath (meshNode data shape) "fields/velx/volume_dependent" = some (CVal.str "false") ∧
    lookupPath (meshNode data shape) "fields/velx/values" =
      some (CVal.extF64 data.velx data.NumberOfCells) ∧
    lookupPath (meshNode data shape) "fields/vely/association" = some (CVal.str "element") ∧
    lookupPath (meshNode data shape) "fields/vely/topology" = some (CVal.str "mesh") ∧
    lookupPath (meshNode data shape) "fields/vely/volume_dependent" = some (CVal.str "false") ∧
    lookupPath (meshNode data shape) "fields/vely/values" =
      some (CVal.extF64 data.vely data.NumberOfCells) ∧
    lookupPath (meshNode data shape) "fields/velz/association" = some (CVal.str "element") ∧
    lookupPath (meshNode data shape) "fields/velz/topology" = some (CVal.str "mesh") ∧
    lookupPath (meshNode data shape) "fields/velz/volume_dependent" = some (CVal.str "false") ∧
    lookupPath (meshNode data shape) "fields/velz/values" =
      some (CVal.extF64 data.velz data.NumberOfCells) ∧
    lookupPath (meshNode data shape) "fields/pressure/association" = some (CVal.str "element") ∧
    lookupPath (meshNode data shape) "fields/pressure/topology" = some (CVal.str "mesh") ∧
    lookupPath (meshNode data shape) "fields/pressure/volume_dependent" = some (CVal.str "false") ∧
    lookupPath (meshNode data shape) "fields/pressure/values" =
      some (CVal.extF64 data.Pressure data.NumberOfCells) ∧
    ∀ i, i < data.NumberOfCells →
      CVal.derefF64 msim (CVal.extF64 data.velx data.NumberOfCells) i =
        some (msim.f64 data.velx i) ∧
      CVal.derefF64 msim (CVal.extF64 data.vely data.NumberOfCells) i =
        some (msim.f64 data.vely i) ∧
      CVal.derefF64 msim (CVal.extF64 data.velz data.NumberOfCells) i =
        some (msim.f64 data.velz i) ∧
      CVal.derefF64 msim (CVal.extF64 data.Pressure data.NumberOfCells) i =
        some (msim.f64 data.Pressure i)

/-- Conclusion of claim C5: the submitted execution parameters carry the
cycle at `catalyst/state/timestep`, the time at `catalyst/state/time`, the
string "mesh" at `catalyst/channels/grid/type`, and the constructed mesh
node attached by reference at `catalyst/channels/grid/data`. -/
def ExecParamsOk (cycle : Int) (time : F64) (data : CatalystData)
    (status : Int) (h0 : Heap) : Prop :=
  ∃ m rest, (do_catalyt_execute cycle time data status h0).trace =
      Event.execCall (execParamsNode cycle time (h0.next + 1)) (h0.next + 1) m :: rest ∧
    lookupPath (execParamsNode cycle time (h0.next + 1)) "catalyst/state/timestep" =
      some (CVal.i64 cycle) ∧
    lookupPath (execParamsNode cycle time (h0.next + 1)) "catalyst/state/time" =
      some (CVal.f64 time) ∧
    lookupPath (execParamsNode cycle time (h0.next + 1)) "catalyst/channels/grid/type" =
      some (CVal.str "mesh") ∧
    lookupPath (execParamsNode cycle time (h0.next + 1)) "catalyst/channels/grid/data" =
      some (CVal.extNode (h0.next + 1))

/-- Conclusion of claim C6: with a non-ok status, each of the three adaptor
entry points logs a diagnostic containing the numeric status and still
returns normally. -/
def StatusLoggedOk (cycle : Int) (time : F64) (data : CatalystData)
    (status : Int) (h0 h1 h2 : Heap) : Prop :=
  ((do_catalyst_initialization status h0).result = ProcResult.returned ∧
    Event.printed ("Failed to initialize Catalyst: " ++ toString status ++ "
")
      ∈ (do_catalyst_initialization status h0).trace) ∧
  ((do_catalyt_execute cycle time data status h1).result = ProcResult.returned ∧
    Event.printed ("Failed to execute Catalyst: " ++ toString status ++ "
")
      ∈ (do_catalyt_execute cycle time data status h1).trace) ∧
  ((do_catalyt_finalization status h2).result = ProcResult.returned ∧
    Event.printed ("Failed to execute Catalyst: " ++ toString status ++ "
")
      ∈ (do_catalyt_finalization status h2).trace)

/-- Conclusion of claim C7: a returning Builder call destroys both transient
nodes before returning — the final heap's live set is the initial one, every
handle reads as before — and the execute call was made, for every status. -/
def TransientDestroyedOk (cycle : Int) (time : F64) (data : CatalystData)
    (status : Int) (h0 : Heap) : Prop :=
  (do_catalyt_execute cycle time data status h0).result = ProcResult.returned ∧
  (do_catalyt_execute cycle time data status h0).heap.live = h0.live ∧
  (∀ id, Heap.get (do_catalyt_execute cycle time data status h0).heap id =
    Heap.get h0 id) ∧
  ∃ p m rest, (do_catalyt_execute cycle time data status h0).trace =
    Event.execCall p (h0.next + 1) m :: rest

/-- Conclusion of claim C9: the three snapshot counts fit in 32 bits, every
view length in the submitted mesh is one of them (hence below 2^32), and the
execution parameter node holds no array view at all. -/
def CountsU32Ok (cycle : Int) (time : F64) (data : CatalystData)
    (status : Int) (h0 : Heap) : Prop :=
  data.NumberOfPoints < 2 ^ 32 ∧ data.NumberOfCells < 2 ^ 32 ∧
  data.Cell2VertexSize < 2 ^ 32 ∧
  ∃ p m rest, (do_catalyt_execute cycle time data status h0).trace =
      Event.execCall p (h0.next + 1) m :: rest ∧
    (∀ e ∈ m, ∀ L, viewLength e.2 = some L →
      (L = data.NumberOfPoints ∨ L = data.NumberOfCells ∨
        L = data.Cell2VertexSize) ∧ L < 2 ^ 32) ∧
    (∀ e ∈ p, viewLength e.2 = none)

lemma initialization_eq (status : Int) (h0 : Heap) :
    do_catalyst_initialization status h0 =
      ⟨ProcResult.returned,
        Event.initCall initParamsNode ::
          statusDiag "Failed to initialize Catalyst: " status,
        ⟨h0.live, h0.next + 1⟩⟩ := by
  simp [do_catalyst_initialization, conduit_node_create,
    conduit_node_set_path_char8_str, Heap.setp, Heap.get, updateNode,
    lookupNode, setPath, conduit_node_destroy, removeNode, initParamsNode,
    statusDiag]

lemma setp_cons_hit {a : Nat} (n : ConduitNode) (rest : List (Nat × ConduitNode))
    (m : Nat) (p : String) (v : CVal) :
    Heap.setp ⟨(a, n) :: rest, m⟩ a p v = ⟨(a, setPath n p v) :: rest, m⟩ := by
  simp [Heap.setp, updateNode]

lemma setp_cons2_hit {a b : Nat} (hab : a ≠ b) (nA nB : ConduitNode)
    (rest : List (Nat × ConduitNode)) (m : Nat) (p : String) (v : CVal) :
    Heap.setp ⟨(a, nA) :: (b, nB) :: rest, m⟩ b p v =
      ⟨(a, nA) :: (b, setPath nB p v) :: rest, m⟩ := by
  simp [Heap.setp, updateNode, hab]

lemma get_cons_hit {a : Nat} (n : ConduitNode) (rest : List (Nat × ConduitNode))
    (m : Nat) : Heap.get ⟨(a, n) :: rest, m⟩ a = some n := by
  simp [Heap.get, lookupNode]

lemma get_cons2_hit {a b : Nat} (hab : a ≠ b) (nA nB : ConduitNode)
    (rest : List (Nat × ConduitNode)) (m : Nat) :
    Heap.get ⟨(a, nA) :: (b, nB) :: rest, m⟩ b = some nB := by
  simp [Heap.get, lookupNode, hab]

lemma destroy_cons_hit {a : Nat} (n : ConduitNode) (rest : List (Nat × ConduitNode))
    (m : Nat) : conduit_node_destroy ⟨(a, n) :: rest, m⟩ a = ⟨rest, m⟩ := by
  simp [conduit_node_destroy, removeNode]

lemma destroy_cons2_hit {a b : Nat} (hab : a ≠ b) (nA nB : ConduitNode)
    (rest : List (Nat × ConduitNode)) (m : Nat) :
    conduit_node_destroy ⟨(a, nA) :: (b, nB) :: rest, m⟩ b = ⟨(a, nA) :: rest, m⟩ := by
  simp [conduit_node_destroy, removeNode, hab]

lemma setPath_fresh (n : ConduitNode) (p : String) (v : CVal)
    (h : p ∉ n.map Prod.fst) : setPath n p v = n ++ [(p, v)] := by
  induction n with
  | nil => rfl
  | cons a t ih =>
      have h1 : ¬ p = a.1 ∧ p ∉ t.map Prod.fst := by simpa using h
      cases a with
      | mk q w =>
          have hqp : q ≠ p := fun hq => h1.1 hq.symm
          simp only [setPath, if_neg hqp, List.cons_append, ih h1.2]

lemma applyWrites_fresh : ∀ (ws : List (String × CVal)) (n : ConduitNode),
    (∀ p ∈ ws.map Prod.fst, p ∉ n.map Prod.fst) → (ws.map Prod.fst).Nodup →
    applyWrites n ws = n ++ ws := by
  intro ws
  induction ws with
  | nil => intro n _ _; simp [applyWrites]
  | cons w t ih =>
      intro n h1 h2
      have hw : w.1 ∉ n.map Prod.fst := h1 w.1 (by simp)
      have hni : w.1 ∉ t.map Prod.fst := by
        simp only [List.map_cons, List.nodup_cons] at h2
        exact h2.1
      have hnodup : (t.map Prod.fst).Nodup := by
        simp only [List.map_cons, List.nodup_cons] at h2
        exact h2.2
      have hdisj : ∀ p ∈ t.map Prod.fst, p ∉ (n ++ [w]).map Prod.fst := by
        intro p hp
        simp only [List.map_append, List.mem_append, List.map_cons,
          List.map_nil, List.mem_singleton, not_or]
        constructor
        · exact h1 p (by simp [hp])
        · intro hpw
          exact hni (hpw ▸ hp)
      have step : setPath n w.1 w.2 = n ++ [w] := by
        rw [setPath_fresh n w.1 w.2 hw]
      have unfoldStep : applyWrites n (w :: t) = applyWrites (setPath n w.1 w.2) t := rfl
      rw [unfoldStep, step, ih (n ++ [w]) hdisj hnodup, List.append_assoc]
      rfl

set_option maxHeartbeats 1000000 in
lemma finish_execute_eq (status : Int) (n : Nat) (data : CatalystData)
    (P M : ConduitNode) (tail : List (Nat × ConduitNode)) (m : Nat) :
    finish_execute status n (n + 1) data ⟨(n + 1, M) :: (n, P) :: tail, m⟩ =
      ⟨ProcResult.returned,
        Event.execCall (setPath P "catalyst/channels/grid/data" (CVal.extNode (n + 1)))
            (n + 1) (applyWrites M (meshWrites data)) ::
          statusDiag "Failed to execute Catalyst: " status,
        ⟨tail, m⟩⟩ := by
  have hab : (n : Nat) + 1 ≠ n := by omega
  simp only [finish_execute, conduit_node_set_path_char8_str,
    conduit_node_set_path_external_int64_ptr,
    conduit_node_set_path_external_float64_ptr,
    conduit_node_set_path_external_node, setp_cons_hit, setp_cons2_hit hab,
    get_cons_hit, get_cons2_hit hab, destroy_cons_hit, destroy_cons2_hit hab,
    Option.getD_some, statusDiag, applyWrites, meshWrites, List.foldl]

lemma meshWrites_keys (data : CatalystData) :
    (meshWrites data).map Prod.fst = meshWriteKeys := rfl

lemma meshWriteKeys_nodup : meshWriteKeys.Nodup := by decide

lemma meshWriteKeys_disjoint : ∀ p ∈ meshWriteKeys, p ∉ meshHeadKeys := by decide

lemma meshNodeHead_keys (data : CatalystData) (shape : String) :
    (meshNodeHead data shape).map Prod.fst = meshHeadKeys := rfl

lemma meshNodeHead_writes (data : CatalystData) (shape : String) :
    applyWrites (meshNodeHead data shape) (meshWrites data) = meshNode data shape := by
  rw [applyWrites_fresh (meshWrites data) (meshNodeHead data shape)]
  · rfl
  · rw [meshWrites_keys, meshNodeHead_keys]
    exact meshWriteKeys_disjoint
  · rw [meshWrites_keys]
    exact meshWriteKeys_nodup


set_option maxHeartbeats 1000000 in
lemma execute_eq_quad (cycle : Int) (time : F64) (data : CatalystData)
    (status : Int) (h0 : Heap) (hd : data.dimensions = 2) :
    do_catalyt_execute cycle time data status h0 =
      ⟨ProcResult.returned,
        Event.execCall (execParamsNode cycle time (h0.next + 1)) (h0.next + 1)
            (meshNode data "quad") ::
          statusDiag "Failed to execute Catalyst: " status,
        ⟨h0.live, h0.next + 2⟩⟩ := by
  have hab : h0.next + 1 ≠ h0.next := by omega
  simp only [do_catalyt_execute, conduit_node_create,
    conduit_node_set_path_char8_str, conduit_node_set_path_int64,
    conduit_node_set_path_float64,
    conduit_node_set_path_external_float64_ptr_detailed, setp_cons_hit,
    setp_cons2_hit hab, hd, Int.reduceEq, reduceIte, sizeof_double,
    Nat.reduceMul, CONDUIT_ENDIANNESS_DEFAULT_ID]
  rw [finish_execute_eq]
  simp only [setPath, String.reduceEq, reduceIte]
  rw [show (([("coordsets/coords/type", CVal.str "explicit"),
      ("coordsets/coords/values/x",
        CVal.extF64Detailed data.Points data.NumberOfPoints 0 24 8 0),
      ("coordsets/coords/values/y",
        CVal.extF64Detailed data.Points data.NumberOfPoints 8 24 8 0),
      ("coordsets/coords/values/z",
        CVal.extF64Detailed data.Points data.NumberOfPoints 16 24 8 0),
      ("topologies/mesh/type", CVal.str "unstructured"),
      ("topologies/mesh/coordset", CVal.str "coords"),
      ("topologies/mesh/elements/shape", CVal.str "quad")] : ConduitNode) =
      meshNodeHead data "quad") from rfl, meshNodeHead_writes]
  rfl

set_option maxHeartbeats 1000000 in
lemma execute_eq_hex (cycle : Int) (time : F64) (data : CatalystData)
    (status : Int) (h0 : Heap) (hd : data.dimensions = 3) :
    do_catalyt_execute cycle time data status h0 =
      ⟨ProcResult.returned,
        Event.execCall (execParamsNode cycle time (h0.next + 1)) (h0.next + 1)
            (meshNode data "hex") ::
          statusDiag "Failed to execute Catalyst: " status,
        ⟨h0.live, h0.next + 2⟩⟩ := by
  have hab : h0.next + 1 ≠ h0.next := by omega
  simp only [do_catalyt_execute, conduit_node_create,
    conduit_node_set_path_char8_str, conduit_node_set_path_int64,
    conduit_node_set_path_float64,
    conduit_node_set_path_external_float64_ptr_detailed, setp_cons_hit,
    setp_cons2_hit hab, hd, Int.reduceEq, reduceIte, sizeof_double,
    Nat.reduceMul, CONDUIT_ENDIANNESS_DEFAULT_ID]
  rw [finish_execute_eq]
  simp only [setPath, String.reduceEq, reduceIte]
  rw [show (([("coordsets/coords/type", CVal.str "explicit"),
      ("coordsets/coords/values/x",
        CVal.extF64Detailed data.Points data.NumberOfPoints 0 24 8 0),
      ("coordsets/coords/values/y",
        CVal.extF64Detailed data.Points data.NumberOfPoints 8 24 8 0),
      ("coordsets/coords/values/z",
        CVal.extF64Detailed data.Points data.NumberOfPoints 16 24 8 0),
      ("topologies/mesh/type", CVal.str "unstructured"),
      ("topologies/mesh/coordset", CVal.str "coords"),
      ("topologies/mesh/elements/shape", CVal.str "hex")] : ConduitNode) =
      meshNodeHead data "hex") from rfl, meshNodeHead_writes]
  rfl

set_option maxHeartbeats 2000000 in
lemma execute_eq_invalid (cycle : Int) (time : F64) (data : CatalystData)
    (status : Int) (h0 : Heap) (hd2 : data.dimensions ≠ 2)
    (hd3 : data.dimensions ≠ 3) :
    do_catalyt_execute cycle time data status h0 =
      ⟨ProcResult.exited 1,
        [Event.printed
          ("Error, incorrect dimensions " ++ toString data.dimensions ++ " ")],
        ⟨(h0.next + 1, meshNodePre data) ::
          (h0.next, execParamsPre cycle time) :: h0.live, h0.next + 2⟩⟩ := by
  have hne : h0.next + 1 ≠ h0.next := by omega
  have hne2 : h0.next ≠ h0.next + 1 := by omega
  simp [do_catalyt_execute, conduit_node_create,
    conduit_node_set_path_char8_str, conduit_node_set_path_int64,
    conduit_node_set_path_float64,
    conduit_node_set_path_external_float64_ptr_detailed, Heap.setp,
    updateNode, setPath, hd2, hd3, hne, hne2, sizeof_double,
    CONDUIT_ENDIANNESS_DEFAULT_ID, meshNodePre, execParamsPre]

lemma finalization_eq (status : Int) (h0 : Heap) :
    do_catalyt_finalization status h0 =
      ⟨ProcResult.returned,
        Event.finalCall [] :: statusDiag "Failed to execute Catalyst: " status,
        ⟨h0.live, h0.next + 1⟩⟩ := by
  simp [do_catalyt_finalization, conduit_node_create, Heap.get, lookupNode,
    conduit_node_destroy, removeNode, statusDiag]

/-- C1: for every snapshot accepted by the Builder, the three coordinate
views x/y/z over the interleaved `Points` array are declared with length
`NumberOfPoints`, element size 8 bytes, stride 24 bytes and byte offsets
0/8/16, and for every axis `a` and index `i < NumberOfPoints`, dereferencing
view `a` at `i` reads `points[3*i + a]`. -/
theorem coord_views_reproduce_interleaved_points (cycle : Int) (time : F64)
    (data : CatalystData) (status : Int) (h0 : Heap) (msim : SimMem)
    (hdim : data.dimensions = 2 ∨ data.dimensions = 3) :
    CoordViewsOk cycle time data status h0 msim := by
  have hx : ∀ i : Nat, (0 + i * 24) / 8 = 3 * i + 0 := fun i => by omega
  have hy : ∀ i : Nat, (8 + i * 24) / 8 = 3 * i + 1 := fun i => by omega
  have hz : ∀ i : Nat, (16 + i * 24) / 8 = 3 * i + 2 := fun i => by omega
  have deref : ∀ i, i < data.NumberOfPoints →
      CVal.derefF64 msim (CVal.extF64Detailed data.Points data.NumberOfPoints 0 24 8
        CONDUIT_ENDIANNESS_DEFAULT_ID) i = some (msim.f64 data.Points (3 * i + 0)) ∧
      CVal.derefF64 msim (CVal.extF64Detailed data.Points data.NumberOfPoints 8 24 8
        CONDUIT_ENDIANNESS_DEFAULT_ID) i = some (msim.f64 data.Points (3 * i + 1)) ∧
      CVal.derefF64 msim (CVal.extF64Detailed data.Points data.NumberOfPoints 16 24 8
        CONDUIT_ENDIANNESS_DEFAULT_ID) i = some (msim.f64 data.Points (3 * i + 2)) := by
    intro i hi
    refine ⟨?_, ?_, ?_⟩
    · simp only [CVal.derefF64, if_pos hi]
      exact congrArg (fun k => some (msim.f64 data.Points k)) (hx i)
    · simp only [CVal.derefF64, if_pos hi]
      exact congrArg (fun k => some (msim.f64 data.Points k)) (hy i)
    · simp only [CVal.derefF64, if_pos hi]
      exact congrArg (fun k => some (msim.f64 data.Points k)) (hz i)
  rcases hdim with hd | hd
  · rw [CoordViewsOk, execute_eq_quad cycle time data status h0 hd]
    exact ⟨_, _, _, rfl, rfl, rfl, rfl, deref⟩
  · rw [CoordViewsOk, execute_eq_hex cycle time data status h0 hd]
    exact ⟨_, _, _, rfl, rfl, rfl, rfl, deref⟩

/-- C1 witness: the conclusion holds at a concrete 2-D snapshot. -/
theorem coord_views_reproduce_interleaved_points_witness :
    (dataQuad.dimensions = 2 ∨ dataQuad.dimensions = 3) ∧
    CoordViewsOk 0 0 dataQuad 0 heap0 simMem0 :=
  ⟨Or.inl rfl,
    coord_views_reproduce_interleaved_points 0 0 dataQuad 0 heap0 simMem0 (Or.inl rfl)⟩

/-- C2: `dimensions = 2` gives shape tag "quad", `dimensions = 3` gives
"hex", and any other value terminates the process with exit code 1 without
the execute entry point ever being invoked. -/
theorem shape_tag_selected_by_dimensions (cycle : Int) (time : F64)
    (data : CatalystData) (status : Int) (h0 : Heap) :
    ShapeTagOk cycle time data status h0 := by
  refine ⟨fun hd => ?_, fun hd => ?_, fun hd2 hd3 => ?_⟩
  · rw [execute_eq_quad cycle time data status h0 hd]
    exact ⟨_, _, _, rfl, rfl, rfl⟩
  · rw [execute_eq_hex cycle time data status h0 hd]
    exact ⟨_, _, _, rfl, rfl, rfl⟩
  · rw [execute_eq_invalid cycle time data status h0 hd2 hd3]
    refine ⟨rfl, by norm_num, ?_⟩
    intro p mid m hmem
    simp at hmem

/-- C2 witness: the conclusion holds at a concrete snapshot. -/
theorem shape_tag_selected_by_dimensions_witness :
    ShapeTagOk 0 0 dataQuad 0 heap0 :=
  shape_tag_selected_by_dimensions 0 0 dataQuad 0 heap0

/-- C3: for every internally consistent snapshot, the connectivity entry is
an external signed-64-bit view of `Cells` of declared length
`Cell2VertexSize`, which equals `NumberOfCells * verticesPerCell dimensions`
(4 per quad cell, 8 per hex cell). -/
theorem connectivity_view_int64_with_consistent_length (cycle : Int)
    (time : F64) (data : CatalystData) (status : Int) (h0 : Heap)
    (hdim : data.dimensions = 2 ∨ data.dimensions = 3)
    (hcons : data.Cell2VertexSize =
      data.NumberOfCells * verticesPerCell data.dimensions) :
    ConnectivityOk cycle time data status h0 := by
  rcases hdim with hd | hd
  · rw [ConnectivityOk, execute_eq_quad cycle time data status h0 hd]
    refine ⟨_, _, _, rfl, rfl, rfl, hcons, fun h2 => ?_, fun h3 => ?_⟩
    · rw [h2]; rfl
    · omega
  · rw [ConnectivityOk, execute_eq_hex cycle time data status h0 hd]
    refine ⟨_, _, _, rfl, rfl, rfl, hcons, fun h2 => ?_, fun h3 => ?_⟩
    · omega
    · rw [h3]; rfl

/-- C3 witness: the conclusion holds at a concrete consistent snapshot. -/
theorem connectivity_view_int64_with_consistent_length_witness :
    (dataQuad.dimensions = 2 ∨ dataQuad.dimensions = 3) ∧
    dataQuad.Cell2VertexSize =
      dataQuad.NumberOfCells * verticesPerCell dataQuad.dimensions ∧
    ConnectivityOk 0 0 dataQuad 0 heap0 :=
  ⟨Or.inl rfl, by decide,
    connectivity_view_int64_with_consistent_length 0 0 dataQuad 0 heap0
      (Or.inl rfl) (by decide)⟩

/-- C4: the Builder creates exactly the four field entries velx, vely, velz
and pressure, each an external float64 view of the matching snapshot array
of length `NumberOfCells`, tagged association "element", topology "mesh" and
volume_dependent "false", and dereferencing reads the arrays unchanged. -/
theorem field_views_match_snapshot_arrays (cycle : Int) (time : F64)
    (data : CatalystData) (status : Int) (h0 : Heap) (msim : SimMem)
    (hdim : data.dimensions = 2 ∨ data.dimensions = 3) :
    FieldViewsOk cycle time data status h0 msim := by
  have deref : ∀ i, i < data.NumberOfCells →
      CVal.derefF64 msim (CVal.extF64 data.velx data.NumberOfCells) i =
        some (msim.f64 data.velx i) ∧
      CVal.derefF64 msim (CVal.extF64 data.vely data.NumberOfCells) i =
        some (msim.f64 data.vely i) ∧
      CVal.derefF64 msim (CVal.extF64 data.velz data.NumberOfCells) i =
        some (msim.f64 data.velz i) ∧
      CVal.derefF64 msim (CVal.extF64 data.Pressure data.NumberOfCells) i =
        some (msim.f64 data.Pressure i) := by
    intro i hi
    refine ⟨?_, ?_, ?_, ?_⟩ <;> simp only [CVal.derefF64, if_pos hi]
  rcases hdim with hd | hd
  · rw [FieldViewsOk, execute_eq_quad cycle time data status h0 hd]
    exact ⟨_, "quad", _, rfl, rfl, rfl, rfl, rfl, rfl, rfl, rfl, rfl, rfl,
      rfl, rfl, rfl, rfl, rfl, rfl, rfl, deref⟩
  · rw [FieldViewsOk, execute_eq_hex cycle time data status h0 hd]
    exact ⟨_, "hex", _, rfl, rfl, rfl, rfl, rfl, rfl, rfl, rfl, rfl, rfl,
      rfl, rfl, rfl, rfl, rfl, rfl, rfl, deref⟩

/-- C4 witness: the conclusion holds at a concrete 2-D snapshot. -/
theorem field_views_match_snapshot_arrays_witness :
    (dataQuad.dimensions = 2 ∨ dataQuad.dimensions = 3) ∧
    FieldViewsOk 0 0 dataQuad 0 heap0 simMem0 :=
  ⟨Or.inl rfl,
    field_views_match_snapshot_arrays 0 0 dataQuad 0 heap0 simMem0 (Or.inl rfl)⟩

/-- C5: the submitted execution parameters carry the integer cycle at
`catalyst/state/timestep`, the float64 time at `catalyst/state/time`, the
string "mesh" at `catalyst/channels/grid/type`, and the constructed mesh
description attached at `catalyst/channels/grid/data`. -/
theorem exec_params_carry_cycle_time_and_channel (cycle : Int) (time : F64)
    (data : CatalystData) (status : Int) (h0 : Heap)
    (hdim : data.dimensions = 2 ∨ data.dimensions = 3) :
    ExecParamsOk cycle time data status h0 := by
  rcases hdim with hd | hd
  · rw [ExecParamsOk, execute_eq_quad cycle time data status h0 hd]
    exact ⟨_, _, rfl, rfl, rfl, rfl, rfl⟩
  · rw [ExecParamsOk, execute_eq_hex cycle time data status h0 hd]
    exact ⟨_, _, rfl, rfl, rfl, rfl, rfl⟩

/-- C5 witness: the conclusion holds at a concrete 2-D snapshot. -/
theorem exec_params_carry_cycle_time_and_channel_witness :
    (dataQuad.dimensions = 2 ∨ dataQuad.dimensions = 3) ∧
    ExecParamsOk 5 1 dataQuad 0 heap0 :=
  ⟨Or.inl rfl,
    exec_params_carry_cycle_time_and_channel 5 1 dataQuad 0 heap0 (Or.inl rfl)⟩

/-- C6: whenever the pipeline returns a non-ok status to the Initializer,
the Executor (with valid dimensions) or the Finalizer, a diagnostic
containing the numeric status is printed and the call still returns
normally; no non-ok status aborts the process. -/
theorem nonok_status_logged_and_nonfatal (cycle : Int) (time : F64)
    (data : CatalystData) (status : Int) (h0 h1 h2 : Heap)
    (hs : status ≠ catalyst_status_ok)
    (hdim : data.dimensions = 2 ∨ data.dimensions = 3) :
    StatusLoggedOk cycle time data status h0 h1 h2 := by
  refine ⟨?_, ?_, ?_⟩
  · rw [initialization_eq]
    exact ⟨rfl, by simp [statusDiag, hs]⟩
  · rcases hdim with hd | hd
    · rw [execute_eq_quad cycle time data status h1 hd]
      exact ⟨rfl, by simp [statusDiag, hs]⟩
    · rw [execute_eq_hex cycle time data status h1 hd]
      exact ⟨rfl, by simp [statusDiag, hs]⟩
  · rw [finalization_eq]
    exact ⟨rfl, by simp [statusDiag, hs]⟩

/-- C6 witness: the conclusion holds at status 1 and a concrete snapshot. -/
theorem nonok_status_logged_and_nonfatal_witness :
    (1 : Int) ≠ catalyst_status_ok ∧
    (dataQuad.dimensions = 2 ∨ dataQuad.dimensions = 3) ∧
    StatusLoggedOk 0 0 dataQuad 1 heap0 heap0 heap0 :=
  ⟨by decide, Or.inl rfl,
    nonok_status_logged_and_nonfatal 0 0 dataQuad 1 heap0 heap0 heap0
      (by decide) (Or.inl rfl)⟩

/-- C7: every returning Builder call destroys both transient description
nodes before returning, for every status returned by the execute call: the
final heap's live node list is exactly the initial one and every handle
reads as before, while the execute call did happen. -/
theorem transient_nodes_destroyed_before_return (cycle : Int) (time : F64)
    (data : CatalystData) (status : Int) (h0 : Heap)
    (hdim : data.dimensions = 2 ∨ data.dimensions = 3) :
    TransientDestroyedOk cycle time data status h0 := by
  rcases hdim with hd | hd
  · rw [TransientDestroyedOk, execute_eq_quad cycle time data status h0 hd]
    exact ⟨rfl, rfl, fun id => rfl, _, _, _, rfl⟩
  · rw [TransientDestroyedOk, execute_eq_hex cycle time data status h0 hd]
    exact ⟨rfl, rfl, fun id => rfl, _, _, _, rfl⟩

/-- C7 witness: the conclusion holds at a concrete 2-D snapshot. -/
theorem transient_nodes_destroyed_before_return_witness :
    (dataQuad.dimensions = 2 ∨ dataQuad.dimensions = 3) ∧
    TransientDestroyedOk 0 0 dataQuad 7 heap0 :=
  ⟨Or.inl rfl,
    transient_nodes_destroyed_before_return 0 0 dataQuad 7 heap0 (Or.inl rfl)⟩

/-- C8: every Initializer call submits a configuration description with
exactly three string-valued entries — the script path at
`catalyst/scripts/script0`, the backend name at
`catalyst_load/implementation`, and the backend install path at
`catalyst_load/search_paths/` followed by that same backend name — and
destroys the configuration node before returning. -/
theorem initializer_builds_three_entry_config (status : Int) (h0 : Heap) :
    ∃ rest, (do_catalyst_initialization status h0).trace =
        Event.initCall initParamsNode :: rest ∧
      initParamsNode.length = 3 ∧
      lookupPath initParamsNode "catalyst/scripts/script0" =
        some (CVal.str "catalyst_pipeline.py") ∧
      (∃ impl, lookupPath initParamsNode "catalyst_load/implementation" =
          some (CVal.str impl) ∧
        lookupPath initParamsNode ("catalyst_load/search_paths/" ++ impl) =
          some (CVal.str "/home/uqngibbo/source/ParaView/build/lib/catalyst")) ∧
      (∀ e ∈ initParamsNode, ∃ s, e.2 = CVal.str s) ∧
      (do_catalyst_initialization status h0).result = ProcResult.returned ∧
      (do_catalyst_initialization status h0).heap.live = h0.live := by
  rw [initialization_eq]
  refine ⟨_, rfl, rfl, rfl, ⟨"paraview", rfl, rfl⟩, ?_, rfl, rfl⟩
  intro e he
  simp only [initParamsNode, List.mem_cons, List.not_mem_nil, or_false] at he
  rcases he with rfl | rfl | rfl
  · exact ⟨"catalyst_pipeline.py", rfl⟩
  · exact ⟨"paraview", rfl⟩
  · exact ⟨"/home/uqngibbo/source/ParaView/build/lib/catalyst", rfl⟩

/-- C9: the snapshot's `NumberOfPoints`, `NumberOfCells` and
`Cell2VertexSize` are 32-bit unsigned values (so larger snapshots are not
representable), and every view length the Builder hands to the pipeline is
one of these three 32-bit counts. -/
theorem snapshot_counts_are_u32 (cycle : Int) (time : F64)
    (data : CatalystData) (status : Int) (h0 : Heap)
    (hdim : data.dimensions = 2 ∨ data.dimensions = 3) :
    CountsU32Ok cycle time data status h0 := by
  have hviews : ∀ shape, ∀ e ∈ meshNode data shape, ∀ L,
      viewLength e.2 = some L →
      (L = data.NumberOfPoints ∨ L = data.NumberOfCells ∨
        L = data.Cell2VertexSize) ∧ L < 2 ^ 32 := by
    intro shape e he L hL
    simp only [meshNode, List.mem_cons, List.not_mem_nil, or_false] at he
    rcases he with rfl | rfl | rfl | rfl | rfl | rfl | rfl | rfl | rfl | rfl |
      rfl | rfl | rfl | rfl | rfl | rfl | rfl | rfl | rfl | rfl | rfl | rfl |
      rfl | rfl <;>
      simp only [viewLength, Option.some.injEq, reduceCtorEq] at hL <;>
      subst hL
    all_goals first
      | exact ⟨Or.inl rfl, data.NumberOfPoints_lt⟩
      | exact ⟨Or.inr (Or.inl rfl), data.NumberOfCells_lt⟩
      | exact ⟨Or.inr (Or.inr rfl), data.Cell2VertexSize_lt⟩
  have hparams : ∀ e ∈ execParamsNode cycle time (h0.next + 1),
      viewLength e.2 = none := by
    intro e he
    simp only [execParamsNode, List.mem_cons, List.not_mem_nil, or_false] at he
    rcases he with rfl | rfl | rfl | rfl <;> rfl
  rcases hdim with hd | hd
  · rw [CountsU32Ok, execute_eq_quad cycle time data status h0 hd]
    exact ⟨data.NumberOfPoints_lt, data.NumberOfCells_lt,
      data.Cell2VertexSize_lt, _, _, _, rfl, hviews "quad", hparams⟩
  · rw [CountsU32Ok, execute_eq_hex cycle time data status h0 hd]
    exact ⟨data.NumberOfPoints_lt, data.NumberOfCells_lt,
      data.Cell2VertexSize_lt, _, _, _, rfl, hviews "hex", hparams⟩

/-- C9 witness: the conclusion holds at a concrete 2-D snapshot. -/
theorem snapshot_counts_are_u32_witness :
    (dataQuad.dimensions = 2 ∨ dataQuad.dimensions = 3) ∧
    CountsU32Ok 0 0 dataQuad 0 heap0 :=
  ⟨Or.inl rfl, snapshot_counts_are_u32 0 0 dataQuad 0 heap0 (Or.inl rfl)⟩

set_option maxHeartbeats 1000000 in
lemma single_typeset_eq_quad (cycle : Int) (time : F64) (data : CatalystData)
    (status : Int) (h0 : Heap) (hd : data.dimensions = 2) :
    do_catalyt_execute_single_typeset cycle time data status h0 =
      ⟨ProcResult.returned,
        Event.execCall (execParamsNode cycle time (h0.next + 1)) (h0.next + 1)
            (meshNode data "quad") ::
          statusDiag "Failed to execute Catalyst: " status,
        ⟨h0.live, h0.next + 2⟩⟩ := by
  have hab : h0.next + 1 ≠ h0.next := by omega
  simp only [do_catalyt_execute_single_typeset, conduit_node_create,
    conduit_node_set_path_char8_str, conduit_node_set_path_int64,
    conduit_node_set_path_float64,
    conduit_node_set_path_external_float64_ptr_detailed, setp_cons_hit,
    setp_cons2_hit hab, hd, Int.reduceEq, reduceIte, sizeof_double,
    Nat.reduceMul, CONDUIT_ENDIANNESS_DEFAULT_ID]
  rw [finish_execute_eq]
  simp only [setPath, String.reduceEq, reduceIte]
  rw [show (([("coordsets/coords/type", CVal.str "explicit"),
      ("coordsets/coords/values/x",
        CVal.extF64Detailed data.Points data.NumberOfPoints 0 24 8 0),
      ("coordsets/coords/values/y",
        CVal.extF64Detailed data.Points data.NumberOfPoints 8 24 8 0),
      ("coordsets/coords/values/z",
        CVal.extF64Detailed data.Points data.NumberOfPoints 16 24 8 0),
      ("topologies/mesh/type", CVal.str "unstructured"),
      ("topologies/mesh/coordset", CVal.str "coords"),
      ("topologies/mesh/elements/shape", CVal.str "quad")] : ConduitNode) =
      meshNodeHead data "quad") from rfl, meshNodeHead_writes]
  rfl

set_option maxHeartbeats 1000000 in
lemma single_typeset_eq_hex (cycle : Int) (time : F64) (data : CatalystData)
    (status : Int) (h0 : Heap) (hd : data.dimensions = 3) :
    do_catalyt_execute_single_typeset cycle time data status h0 =
      ⟨ProcResult.returned,
        Event.execCall (execParamsNode cycle time (h0.next + 1)) (h0.next + 1)
            (meshNode data "hex") ::
          statusDiag "Failed to execute Catalyst: " status,
        ⟨h0.live, h0.next + 2⟩⟩ := by
  have hab : h0.next + 1 ≠ h0.next := by omega
  simp only [do_catalyt_execute_single_typeset, conduit_node_create,
    conduit_node_set_path_char8_str, conduit_node_set_path_int64,
    conduit_node_set_path_float64,
    conduit_node_set_path_external_float64_ptr_detailed, setp_cons_hit,
    setp_cons2_hit hab, hd, Int.reduceEq, reduceIte, sizeof_double,
    Nat.reduceMul, CONDUIT_ENDIANNESS_DEFAULT_ID]
  rw [finish_execute_eq]
  simp only [setPath, String.reduceEq, reduceIte]
  rw [show (([("coordsets/coords/type", CVal.str "explicit"),
      ("coordsets/coords/values/x",
        CVal.extF64Detailed data.Points data.NumberOfPoints 0 24 8 0),
      ("coordsets/coords/values/y",
        CVal.extF64Detailed data.Points data.NumberOfPoints 8 24 8 0),
      ("coordsets/coords/values/z",
        CVal.extF64Detailed data.Points data.NumberOfPoints 16 24 8 0),
      ("topologies/mesh/type", CVal.str "unstructured"),
      ("topologies/mesh/coordset", CVal.str "coords"),
      ("topologies/mesh/elements/shape", CVal.str "hex")] : ConduitNode) =
      meshNodeHead data "hex") from rfl, meshNodeHead_writes]
  rfl

set_option maxHeartbeats 2000000 in
lemma single_typeset_eq_invalid (cycle : Int) (time : F64)
    (data : CatalystData) (status : Int) (h0 : Heap)
    (hd2 : data.dimensions ≠ 2) (hd3 : data.dimensions ≠ 3) :
    do_catalyt_execute_single_typeset cycle time data status h0 =
      ⟨ProcResult.exited 1,
        [Event.printed
          ("Error, incorrect dimensions " ++ toString data.dimensions ++ " ")],
        ⟨(h0.next + 1, meshNodePre data) ::
          (h0.next, execParamsPre cycle time) :: h0.live, h0.next + 2⟩⟩ := by
  have hne : h0.next + 1 ≠ h0.next := by omega
  have hne2 : h0.next ≠ h0.next + 1 := by omega
  simp [do_catalyt_execute_single_typeset, conduit_node_create,
    conduit_node_set_path_char8_str, conduit_node_set_path_int64,
    conduit_node_set_path_float64,
    conduit_node_set_path_external_float64_ptr_detailed, Heap.setp,
    updateNode, setPath, hd2, hd3, hne, hne2, sizeof_double,
    CONDUIT_ENDIANNESS_DEFAULT_ID, meshNodePre, execParamsPre]

/-- C10: the duplicated write of "explicit" to `coordsets/coords/type` is
idempotent — the whole Builder outcome is identical to the one of the
comparison program that performs the write once. -/
theorem duplicate_typeset_write_idempotent (cycle : Int) (time : F64)
    (data : CatalystData) (status : Int) (h0 : Heap) :
    do_catalyt_execute cycle time data status h0 =
      do_catalyt_execute_single_typeset cycle time data status h0 := by
  by_cases hd2 : data.dimensions = 2
  · rw [execute_eq_quad cycle time data status h0 hd2,
      single_typeset_eq_quad cycle time data status h0 hd2]
  · by_cases hd3 : data.dimensions = 3
    · rw [execute_eq_hex cycle time data status h0 hd3,
        single_typeset_eq_hex cycle time data status h0 hd3]
    · rw [execute_eq_invalid cycle time data status h0 hd2 hd3,
        single_typeset_eq_invalid cycle time data status h0 hd2 hd3]
